import Mathlib

/-!
Verification of the marketing-metric dashboard pipeline (`app.py`).

The pipeline has two stages:
* `carregar_e_processar_dados` — coerces numeric columns, derives the per-record
  metrics CTR, CPC, CPM, CPL, daily total cost and daily CAC, and normalizes
  infinite / not-a-number values to 0 (lines 17-48 of the source);
* the module-level dashboard body — filters records by selected platform and
  campaign, computes overall KPIs, the per-campaign rollup table
  (`df_campanhas`), and the two automatic insights (lines 52-177).

pandas float arithmetic is embedded with exact rationals extended by the three
non-finite values (`PVal`); identifier cells are `IdCell` (a string, or the
number 0 written into missing cells by `fillna(0)` at line 46).
-/

namespace AnaliseCAC

/-- A pandas float-column value: a finite rational, `+inf`, `-inf`, or NaN. -/
inductive PVal where
  | fin (q : ℚ)
  | pinf
  | ninf
  | nan
  deriving DecidableEq

/-- Division of two finite column values, as pandas float division behaves:
`a / 0` is NaN when `a = 0`, `+inf` when `a > 0` and `-inf` when `a < 0`;
otherwise the exact quotient. -/
def pdiv (a b : ℚ) : PVal :=
  if b = 0 then (if a = 0 then .nan else if 0 < a then .pinf else .ninf)
  else .fin (a / b)

/-- Multiplication of a column value by one of the positive finite literals
appearing in the source (`* 100` at line 28, `* 1000` at line 35). -/
def pscale (x : PVal) (k : ℚ) : PVal :=
  match x with
  | .fin q => .fin (q * k)
  | .pinf => .pinf
  | .ninf => .ninf
  | .nan => .nan

/-- The float comparison `x <= 100` of line 29: false for NaN and `+inf`,
true for `-inf`. -/
def le100 (x : PVal) : Bool :=
  match x with
  | .fin q => decide (q ≤ 100)
  | .pinf => false
  | .ninf => true
  | .nan => false

/-- Line 29: `df['CTR'].apply(lambda x: x if x <= 100 else 0)`. -/
def clampCTR (x : PVal) : PVal :=
  if le100 x then x else .fin 0

/-- Line 46 applied to a metric column:
`df.replace([inf, -inf], pd.NA).fillna(0)` sends both infinities and NaN
to 0 and keeps finite values. -/
def toFinal : PVal → ℚ
  | .fin q => q
  | _ => 0

/-- A value of an identifier column (`Plataforma`, `Campanha`): a string from
the CSV, or the number that `fillna(0)` (line 46) writes into a missing cell. -/
inductive IdCell where
  | str (s : String)
  | num (q : ℚ)
  deriving DecidableEq

/-- A raw CSV row. `none` in a field is a missing or unparsable cell (NaN):
for the six numeric columns this is the state after
`pd.to_numeric(errors='coerce')` (line 23), for the two identifier columns it
is a missing cell of the CSV. -/
structure RawRecord where
  plataforma : Option IdCell
  campanha : Option IdCell
  investimento : Option ℚ
  impressoes : Option ℚ
  cliques : Option ℚ
  leads : Option ℚ
  novos_clientes : Option ℚ
  outros_custos : Option ℚ
  deriving DecidableEq

/-- A processed row of the dataframe returned by `carregar_e_processar_dados`:
the coerced base columns plus the derived metric columns, all finite after the
line-46 normalization. -/
structure CalcRecord where
  plataforma : IdCell
  campanha : IdCell
  investimento : ℚ
  impressoes : ℚ
  cliques : ℚ
  leads : ℚ
  novos_clientes : ℚ
  outros_custos : ℚ
  ctr : ℚ
  cpc : ℚ
  cpm : ℚ
  cpl : ℚ
  custo_total_diario : ℚ
  cac_diario : ℚ
  deriving DecidableEq

/-- One row of `carregar_e_processar_dados` (lines 17-48): numeric coercion
with `fillna(0)` (line 23), the metric derivations (lines 28-43, with the CTR
clamp of line 29), and the final `replace([inf,-inf], NA).fillna(0)` of
line 46 — which also fills a missing identifier cell with the number 0. -/
def calcRecord (r : RawRecord) : CalcRecord :=
  let inv := r.investimento.getD 0
  let imp := r.impressoes.getD 0
  let cli := r.cliques.getD 0
  let led := r.leads.getD 0
  let nov := r.novos_clientes.getD 0
  let out := r.outros_custos.getD 0
  { plataforma := r.plataforma.getD (.num 0)
    campanha := r.campanha.getD (.num 0)
    investimento := inv
    impressoes := imp
    cliques := cli
    leads := led
    novos_clientes := nov
    outros_custos := out
    ctr := toFinal (clampCTR (pscale (pdiv cli imp) 100))
    cpc := toFinal (pdiv inv cli)
    cpm := toFinal (pscale (pdiv inv imp) 1000)
    cpl := toFinal (pdiv inv led)
    custo_total_diario := inv + out
    cac_diario := toFinal (pdiv (inv + out) nov) }

/-- `carregar_e_processar_dados`: the whole dataframe transformation, row by
row (every source operation in lines 18-46 acts column-wise, independently on
each row). -/
def carregar_e_processar_dados (rs : List RawRecord) : List CalcRecord :=
  rs.map calcRecord

/-- Lines 72-75: keep the rows whose platform and campaign are both in the
selected inclusion lists (`isin`). -/
def df_filtrado (records : List CalcRecord) (plats camps : List IdCell) :
    List CalcRecord :=
  records.filter fun c => decide (c.plataforma ∈ plats) && decide (c.campanha ∈ camps)

/-- `Series.mean()` on a finite-valued column: sum divided by length. -/
def meanQ (l : List ℚ) : ℚ := l.sum / l.length

/-- The groupby key of a processed row: `(Plataforma, Campanha)`. -/
def recordKey (c : CalcRecord) : IdCell × IdCell := (c.plataforma, c.campanha)

/-- Lexicographic strict order on lists of characters, by code point — the
order Python uses to compare strings. -/
def charListLt : List Char → List Char → Bool
  | [], [] => false
  | [], _ :: _ => true
  | _ :: _, [] => false
  | a :: as, b :: bs => if a < b then true else if b < a then false else charListLt as bs

/-- Lexicographic non-strict order on lists of characters. -/
def charListLe : List Char → List Char → Bool
  | [], _ => true
  | _ :: _, [] => false
  | a :: as, b :: bs => if a < b then true else if b < a then false else charListLe as bs

/-- Strict order on identifier cells: numbers before strings, numbers by
value, strings lexicographically. -/
def IdCell.ltB : IdCell → IdCell → Bool
  | .num a, .num b => decide (a < b)
  | .num _, .str _ => true
  | .str _, .num _ => false
  | .str a, .str b => charListLt a.toList b.toList

/-- Non-strict order on identifier cells. -/
def IdCell.leB : IdCell → IdCell → Bool
  | .num a, .num b => decide (a ≤ b)
  | .num _, .str _ => true
  | .str _, .num _ => false
  | .str a, .str b => charListLe a.toList b.toList

/-- The ascending group-key order applied by `groupby(sort=True)` (the pandas
default, line 105): lexicographic on `(Plataforma, Campanha)`. -/
def keyLe (x y : IdCell × IdCell) : Prop :=
  (if x.1 = y.1 then IdCell.leB x.2 y.2 else IdCell.ltB x.1 y.1) = true

instance : DecidableRel keyLe := fun x y => by unfold keyLe; infer_instance

/-- Helper for `uniqueKeys`: keys already emitted are in `seen`. -/
def uniqueKeysAux (seen : List (IdCell × IdCell)) :
    List (IdCell × IdCell) → List (IdCell × IdCell)
  | [] => []
  | k :: ks => if k ∈ seen then uniqueKeysAux seen ks else k :: uniqueKeysAux (k :: seen) ks

/-- The distinct group keys of a key list, in order of first appearance. -/
def uniqueKeys (l : List (IdCell × IdCell)) : List (IdCell × IdCell) :=
  uniqueKeysAux [] l

/-- One row of the rollup table `df_campanhas` (lines 105-111). -/
structure Rollup where
  plataforma : IdCell
  campanha : IdCell
  investimento : ℚ
  leads : ℚ
  clientes : ℚ
  cpl_campanha : ℚ
  ctr_campanha : ℚ
  deriving DecidableEq

/-- Lines 105-111:
`df_filtrado.groupby(['Plataforma','Campanha']).agg(...).reset_index()` —
one row per distinct `(Plataforma, Campanha)` key, in ascending key order
(pandas `sort=True` default), with sums of `Investimento`, `Leads`,
`Novos_Clientes` and means of `CPL`, `CTR` over the group's rows. -/
def df_campanhas (f : List CalcRecord) : List Rollup :=
  (List.insertionSort keyLe (uniqueKeys (f.map recordKey))).map fun k =>
    let g := f.filter fun c => decide (recordKey c = k)
    { plataforma := k.1
      campanha := k.2
      investimento := (g.map (·.investimento)).sum
      leads := (g.map (·.leads)).sum
      clientes := (g.map (·.novos_clientes)).sum
      cpl_campanha := meanQ (g.map (·.cpl))
      ctr_campanha := meanQ (g.map (·.ctr)) }

/-- Line 82. -/
def total_investimento (f : List CalcRecord) : ℚ := (f.map (·.investimento)).sum

/-- Line 83. -/
def total_clientes (f : List CalcRecord) : ℚ := (f.map (·.novos_clientes)).sum

/-- Line 84. -/
def total_leads (f : List CalcRecord) : ℚ := (f.map (·.leads)).sum

/-- Line 87: mean of the per-record CPC column. -/
def cpc_medio (f : List CalcRecord) : ℚ := meanQ (f.map (·.cpc))

/-- Line 88: mean of the per-record CTR column. -/
def ctr_medio (f : List CalcRecord) : ℚ := meanQ (f.map (·.ctr))

/-- Line 89: `total_investimento / total_leads if total_leads > 0 else 0`. -/
def cpl_medio (f : List CalcRecord) : ℚ :=
  if 0 < total_leads f then total_investimento f / total_leads f else 0

/-- Line 92: total daily cost over total new clients, guarded to 0. -/
def cac_geral (f : List CalcRecord) : ℚ :=
  if 0 < total_clientes f then (f.map (·.custo_total_diario)).sum / total_clientes f
  else 0

/-- Line 129: the high-CPL alert threshold. -/
def cpl_limite_alerta : ℚ := 50

/-- Line 130: the rollup rows whose mean CPL strictly exceeds the threshold. -/
def campanhas_cpl_alto (rollups : List Rollup) : List Rollup :=
  rollups.filter fun r => decide (cpl_limite_alerta < r.cpl_campanha)

/-- An emitted insight: the high-CPL alert (`st.error`, line 134, carrying the
qualifying campaign names), the all-clear (`st.success`, line 137), or the
low-CTR warning (`st.warning`, line 141, carrying the mean CTR). -/
inductive Insight where
  | high_cpl_alert (campanhas : List IdCell)
  | ok
  | low_ctr_warning (ctr : ℚ)
  deriving DecidableEq

/-- Whether an insight was emitted by the CPL rule (lines 129-137). -/
def Insight.isCplKind : Insight → Bool
  | .high_cpl_alert _ => true
  | .ok => true
  | .low_ctr_warning _ => false

/-- Insight rule 1 (lines 132-137): the alert naming all qualifying campaigns
if any rollup exceeds the threshold, otherwise the all-clear message. The
alert carries the campaign cells as a list; line 133 further joins them into
one message string, which is total only when every cell is a string — the
non-string error path is modelled by `join_lista_campanhas` and
`cplInsightsE` below, so this definition is the rule for string campaign
keys. -/
def cplInsights (rollups : List Rollup) : List Insight :=
  if (campanhas_cpl_alto rollups).isEmpty then [.ok]
  else [.high_cpl_alert ((campanhas_cpl_alto rollups).map (·.campanha))]

/-- Line 133: `", ".join(campanhas_cpl_alto['Campanha'].tolist())`. Python's
`str.join` raises TypeError when some element is not a string — e.g. the
number 0 that `fillna(0)` wrote into a missing campaign cell — modelled as
`none`; on all-string cells it returns the joined message text. -/
def join_lista_campanhas : List IdCell → Option String
  | [] => some ""
  | [.str s] => some s
  | .str s :: c :: rest =>
    match join_lista_campanhas (c :: rest) with
    | some t => some (s ++ ", " ++ t)
    | none => none
  | .num _ :: _ => none

/-- Insight rule 1 with line 133's message join modelled: when the alert
fires, the join of the qualifying campaign cells raises TypeError (`none`)
if one of them is not a string. -/
def cplInsightsE (rollups : List Rollup) : Option (List Insight) :=
  if (campanhas_cpl_alto rollups).isEmpty then some [.ok]
  else
    match join_lista_campanhas ((campanhas_cpl_alto rollups).map (·.campanha)) with
    | some _ => some [.high_cpl_alert ((campanhas_cpl_alto rollups).map (·.campanha))]
    | none => none

/-- Insight rule 2 (lines 140-142): the low-CTR warning, emitted exactly when
total investment is positive and the mean CTR is strictly below 1.0. -/
def ctrInsights (f : List CalcRecord) : List Insight :=
  if 0 < total_investimento f ∧ ctr_medio f < 1 then [.low_ctr_warning (ctr_medio f)]
  else []

/-- The four overall KPIs of lines 87-92. -/
structure KPISummary where
  cpc_medio : ℚ
  ctr_medio : ℚ
  cpl_medio : ℚ
  cac_geral : ℚ
  deriving DecidableEq

/-- Everything the dashboard body derives from the filtered record set. -/
structure AggResult where
  kpis : KPISummary
  rollups : List Rollup
  insights : List Insight
  deriving DecidableEq

/-- The module-level dashboard body (lines 72-177): filter, then — when the
filtered set is non-empty — KPIs, the rollup table and the insights, in source
order (CPL rule before CTR rule). When the filtered set is empty the source's
`else` branch (lines 176-177) only shows an info message and computes no KPI,
rollup or insight; that outcome is represented as the all-zero empty result. -/
def aggregateAndEvaluate (records : List CalcRecord) (plats camps : List IdCell) :
    AggResult :=
  let f := df_filtrado records plats camps
  if f.isEmpty then ⟨⟨0, 0, 0, 0⟩, [], []⟩
  else ⟨⟨cpc_medio f, ctr_medio f, cpl_medio f, cac_geral f⟩, df_campanhas f,
        cplInsights (df_campanhas f) ++ ctrInsights f⟩

/-- The dashboard body with the line-133 error path modelled: `none` is the
TypeError of `", ".join` escaping to the caller when a qualifying campaign
cell is not a string; on all-string campaign keys this agrees with
`aggregateAndEvaluate` (see `aggregateAndEvaluateE_of_str`). -/
def aggregateAndEvaluateE (records : List CalcRecord) (plats camps : List IdCell) :
    Option AggResult :=
  let f := df_filtrado records plats camps
  if f.isEmpty then some ⟨⟨0, 0, 0, 0⟩, [], []⟩
  else
    match cplInsightsE (df_campanhas f) with
    | some ins =>
      some ⟨⟨cpc_medio f, ctr_medio f, cpl_medio f, cac_geral f⟩, df_campanhas f,
            ins ++ ctrInsights f⟩
    | none => none

/-! ### Concrete inputs used in scenario theorems -/

/-- A record all of whose numeric cells are zero. -/
def rawZeros : RawRecord :=
  ⟨some (.str "Google"), some (.str "Busca"), some 0, some 0, some 0, some 0,
   some 0, some 0⟩

/-- The record of the spec's worked scenario: investment 100, impressions 1000,
clicks 50, leads 10, new clients 2, other costs 20. -/
def rawC9 : RawRecord :=
  ⟨some (.str "Google"), some (.str "Institucional"), some 100, some 1000,
   some 50, some 10, some 2, some 20⟩

/-- A record whose computed CTR exceeds 100% (50 clicks on 10 impressions). -/
def rawHighCtr : RawRecord :=
  ⟨some (.str "Google"), some (.str "Busca"), some 10, some 10, some 50,
   some 1, some 1, some 0⟩

/-- A record with a negative click count, giving a negative computed CTR. -/
def rawNegCtr : RawRecord :=
  ⟨some (.str "Google"), some (.str "Busca"), some 10, some 1000, some (-5),
   some 1, some 1, some 0⟩

/-- Skewed-data record: investment 90 for a single lead (per-record CPL 90). -/
def rawSkew90 : RawRecord :=
  ⟨some (.str "Google"), some (.str "Busca"), some 90, some 0, some 0, some 1,
   some 0, some 0⟩

/-- Skewed-data record: investment 10 for ten leads (per-record CPL 1). -/
def rawSkew10 : RawRecord :=
  ⟨some (.str "Google"), some (.str "Busca"), some 10, some 0, some 0, some 10,
   some 0, some 0⟩

/-- The processed skewed-data set (ratio-of-sums CPL 100/11, mean CPL 91/2). -/
def skewRecords : List CalcRecord := carregar_e_processar_dados [rawSkew90, rawSkew10]

/-- Record of campaign (Meta, Promo) with per-record CPL 10. -/
def rawCpl10 : RawRecord :=
  ⟨some (.str "Meta"), some (.str "Promo"), some 10, some 0, some 0, some 1,
   some 0, some 0⟩

/-- Record of campaign (Meta, Promo) with per-record CPL 90. -/
def rawCpl90 : RawRecord :=
  ⟨some (.str "Meta"), some (.str "Promo"), some 90, some 0, some 0, some 1,
   some 0, some 0⟩

/-- The processed two-record campaign whose rollup mean CPL is exactly 50. -/
def cplRecords : List CalcRecord := carregar_e_processar_dados [rawCpl10, rawCpl90]

/-- Platform filter list used by the scenario theorems. -/
def platsG : List IdCell := [.str "Google"]

/-- Campaign filter list used by the scenario theorems. -/
def campsB : List IdCell := [.str "Busca"]

/-- Platform filter list for the (Meta, Promo) scenarios. -/
def platsM : List IdCell := [.str "Meta"]

/-- Campaign filter list for the (Meta, Promo) scenarios. -/
def campsP : List IdCell := [.str "Promo"]

/-- A record whose platform cell is missing from the CSV. -/
def rawMissingPlat : RawRecord :=
  ⟨none, some (.str "CampX"), some 10, some 0, some 0, some 1, some 1, some 0⟩

/-- A record whose platform and campaign cells are both missing, with
investment 90 for a single lead (per-record CPL 90, above the alert
threshold). -/
def rawMissingBoth : RawRecord :=
  ⟨none, none, some 90, some 0, some 0, some 1, some 0, some 0⟩

/-- A record of group (B, y), listed before the (A, x) record. -/
def rawPlatB : RawRecord :=
  ⟨some (.str "B"), some (.str "y"), some 1, some 0, some 0, some 0, some 0,
   some 0⟩

/-- A record of group (A, x), listed after the (B, y) record. -/
def rawPlatA : RawRecord :=
  ⟨some (.str "A"), some (.str "x"), some 2, some 0, some 0, some 0, some 0,
   some 0⟩

/-- A processed record set whose groups appear in the order (B, y), (A, x). -/
def orderRecords : List CalcRecord := carregar_e_processar_dados [rawPlatB, rawPlatA]

/-- Platform filter list for the group-order scenario. -/
def platsBA : List IdCell := [.str "B", .str "A"]

/-- Campaign filter list for the group-order scenario. -/
def campsYX : List IdCell := [.str "y", .str "x"]

end AnaliseCAC

namespace AnaliseCAC

/-! ### Per-record lemmas about the metric calculator -/

lemma pdiv_of_ne (a b : ℚ) (h : b ≠ 0) : pdiv a b = .fin (a / b) := by
  simp [pdiv, h]

lemma toFinal_pdiv_zero (a : ℚ) : toFinal (pdiv a 0) = 0 := by
  by_cases h0 : a = 0
  · simp [pdiv, h0, toFinal]
  · by_cases hp : 0 < a <;> simp [pdiv, h0, hp, toFinal]

lemma toFinal_pscale_pdiv_zero (a k : ℚ) : toFinal (pscale (pdiv a 0) k) = 0 := by
  by_cases h0 : a = 0
  · simp [pdiv, h0, pscale, toFinal]
  · by_cases hp : 0 < a <;> simp [pdiv, h0, hp, pscale, toFinal]

lemma toFinal_ctr_zero_imp (c k : ℚ) :
    toFinal (clampCTR (pscale (pdiv c 0) k)) = 0 := by
  by_cases h0 : c = 0
  · simp [pdiv, h0, pscale, clampCTR, le100, toFinal]
  · by_cases hp : 0 < c <;>
      simp [pdiv, h0, hp, pscale, clampCTR, le100, toFinal]

lemma ctr_of_imp_ne (c i : ℚ) (h : i ≠ 0) :
    toFinal (clampCTR (pscale (pdiv c i) 100)) =
      if c / i * 100 ≤ 100 then c / i * 100 else 0 := by
  by_cases hle : c / i * 100 ≤ 100 <;>
    simp [pdiv, h, pscale, clampCTR, le100, hle, toFinal]

/-- C1: for every input record with a zero denominator — clicks for CPC,
impressions for CTR and CPM, leads for CPL, new clients for daily CAC — the
corresponding derived field of the corresponding output record of
`carregar_e_processar_dados` is exactly 0 (the output columns are exact
rationals: never infinite, never NaN). -/
theorem c1_zero_denominators (rs : List RawRecord) (c : CalcRecord)
    (hc : c ∈ carregar_e_processar_dados rs) :
    (c.cliques = 0 → c.cpc = 0) ∧
    (c.impressoes = 0 → c.ctr = 0 ∧ c.cpm = 0) ∧
    (c.leads = 0 → c.cpl = 0) ∧
    (c.novos_clientes = 0 → c.cac_diario = 0) := by
  obtain ⟨r, -, rfl⟩ := List.mem_map.mp hc
  refine ⟨?_, ?_, ?_, ?_⟩ <;> simp only [calcRecord] <;> intro h <;> rw [h]
  · exact toFinal_pdiv_zero _
  · exact ⟨toFinal_ctr_zero_imp _ _, toFinal_pscale_pdiv_zero _ _⟩
  · exact toFinal_pdiv_zero _
  · exact toFinal_pdiv_zero _

theorem c1_zero_denominators_witness :
    calcRecord rawZeros ∈ carregar_e_processar_dados [rawZeros] ∧
    (calcRecord rawZeros).cliques = 0 ∧
    (calcRecord rawZeros).impressoes = 0 ∧
    (calcRecord rawZeros).leads = 0 ∧
    (calcRecord rawZeros).novos_clientes = 0 ∧
    (calcRecord rawZeros).cpc = 0 ∧
    (calcRecord rawZeros).ctr = 0 ∧
    (calcRecord rawZeros).cpm = 0 ∧
    (calcRecord rawZeros).cpl = 0 ∧
    (calcRecord rawZeros).cac_diario = 0 := by
  have hmem : calcRecord rawZeros ∈ carregar_e_processar_dados [rawZeros] := by
    simp [carregar_e_processar_dados]
  have h := c1_zero_denominators [rawZeros] _ hmem
  have hcl : (calcRecord rawZeros).cliques = 0 := rfl
  have him : (calcRecord rawZeros).impressoes = 0 := rfl
  have hld : (calcRecord rawZeros).leads = 0 := rfl
  have hnc : (calcRecord rawZeros).novos_clientes = 0 := rfl
  exact ⟨hmem, hcl, him, hld, hnc, h.1 hcl, (h.2.1 him).1, (h.2.1 him).2,
    h.2.2.1 hld, h.2.2.2 hnc⟩

/-- C9: the spec's worked scenario — investment 100, impressions 1000,
clicks 50, leads 10, new clients 2, other costs 20 — yields ctr 5, cpc 2,
cpm 100, cpl 10, total daily cost 120, daily CAC 60. -/
theorem c9_worked_scenario :
    carregar_e_processar_dados [rawC9] =
      [{ plataforma := .str "Google", campanha := .str "Institucional",
         investimento := 100, impressoes := 1000, cliques := 50, leads := 10,
         novos_clientes := 2, outros_custos := 20,
         ctr := 5, cpc := 2, cpm := 100, cpl := 10,
         custo_total_diario := 120, cac_diario := 60 }] := by
  norm_num [carregar_e_processar_dados, rawC9, calcRecord, pdiv, pscale,
    clampCTR, le100, toFinal]

/-- C2: for every output record, when impressions are positive the CTR column
holds clicks/impressions·100 if that ratio is at most 100 and 0 if the ratio
exceeds 100 (a ratio of exactly 100 is kept); when impressions are 0 the CTR
is 0. -/
theorem c2_ctr_rule (rs : List RawRecord) (c : CalcRecord)
    (hc : c ∈ carregar_e_processar_dados rs) :
    (0 < c.impressoes →
      (c.cliques / c.impressoes * 100 ≤ 100 →
        c.ctr = c.cliques / c.impressoes * 100) ∧
      (100 < c.cliques / c.impressoes * 100 → c.ctr = 0) ∧
      (c.cliques / c.impressoes * 100 = 100 → c.ctr = 100)) ∧
    (c.impressoes = 0 → c.ctr = 0) := by
  obtain ⟨r, -, rfl⟩ := List.mem_map.mp hc
  simp only [calcRecord]
  constructor
  · intro hpos
    rw [ctr_of_imp_ne _ _ (ne_of_gt hpos)]
    refine ⟨fun hle => if_pos hle, fun hgt => if_neg (not_le.mpr hgt), ?_⟩
    intro heq
    rw [heq]
    exact if_pos le_rfl
  · intro h0
    rw [h0]
    exact toFinal_ctr_zero_imp _ _

theorem c2_ctr_rule_witness :
    calcRecord rawC9 ∈ carregar_e_processar_dados [rawC9] ∧
    0 < (calcRecord rawC9).impressoes ∧
    (calcRecord rawC9).cliques / (calcRecord rawC9).impressoes * 100 ≤ 100 ∧
    (calcRecord rawC9).ctr =
      (calcRecord rawC9).cliques / (calcRecord rawC9).impressoes * 100 ∧
    calcRecord rawHighCtr ∈ carregar_e_processar_dados [rawHighCtr] ∧
    0 < (calcRecord rawHighCtr).impressoes ∧
    100 < (calcRecord rawHighCtr).cliques / (calcRecord rawHighCtr).impressoes * 100 ∧
    (calcRecord rawHighCtr).ctr = 0 ∧
    calcRecord rawZeros ∈ carregar_e_processar_dados [rawZeros] ∧
    (calcRecord rawZeros).impressoes = 0 ∧
    (calcRecord rawZeros).ctr = 0 := by
  have hm1 : calcRecord rawC9 ∈ carregar_e_processar_dados [rawC9] := by
    simp [carregar_e_processar_dados]
  have hm2 : calcRecord rawHighCtr ∈ carregar_e_processar_dados [rawHighCtr] := by
    simp [carregar_e_processar_dados]
  have hm3 : calcRecord rawZeros ∈ carregar_e_processar_dados [rawZeros] := by
    simp [carregar_e_processar_dados]
  have h1 := c2_ctr_rule [rawC9] _ hm1
  have h2 := c2_ctr_rule [rawHighCtr] _ hm2
  have h3 := c2_ctr_rule [rawZeros] _ hm3
  have hp1 : (0:ℚ) < (calcRecord rawC9).impressoes := by
    norm_num [calcRecord, rawC9]
  have hle1 : (calcRecord rawC9).cliques / (calcRecord rawC9).impressoes * 100 ≤ 100 := by
    norm_num [calcRecord, rawC9]
  have hp2 : (0:ℚ) < (calcRecord rawHighCtr).impressoes := by
    norm_num [calcRecord, rawHighCtr]
  have hgt2 : 100 <
      (calcRecord rawHighCtr).cliques / (calcRecord rawHighCtr).impressoes * 100 := by
    norm_num [calcRecord, rawHighCtr]
  have h03 : (calcRecord rawZeros).impressoes = 0 := rfl
  exact ⟨hm1, hp1, hle1, (h1.1 hp1).1 hle1, hm2, hp2, hgt2, (h2.1 hp2).2.1 hgt2,
    hm3, h03, h3.2 h03⟩

/-- C10: every output record's CTR is at most 100 — the line-29 clamp is
one-sided: a value that is exactly 100, or negative (from negative click or
impression inputs), passes through unchanged rather than being reset to 0. -/
theorem c10_ctr_one_sided_clamp (rs : List RawRecord) (c : CalcRecord)
    (hc : c ∈ carregar_e_processar_dados rs) :
    c.ctr ≤ 100 ∧
    (c.impressoes ≠ 0 → c.cliques / c.impressoes * 100 ≤ 100 →
      c.ctr = c.cliques / c.impressoes * 100) ∧
    (c.impressoes ≠ 0 → c.cliques / c.impressoes * 100 < 0 →
      c.ctr < 0) := by
  obtain ⟨r, -, rfl⟩ := List.mem_map.mp hc
  simp only [calcRecord]
  refine ⟨?_, ?_, ?_⟩
  · by_cases h0 : r.impressoes.getD 0 = 0
    · rw [h0, toFinal_ctr_zero_imp]
      norm_num
    · rw [ctr_of_imp_ne _ _ h0]
      split
      · assumption
      · norm_num
  · intro h0 hle
    rw [ctr_of_imp_ne _ _ h0]
    exact if_pos hle
  · intro h0 hneg
    rw [ctr_of_imp_ne _ _ h0, if_pos (le_of_lt (lt_of_lt_of_le hneg (by norm_num)))]
    exact hneg

theorem c10_ctr_one_sided_clamp_witness :
    calcRecord rawNegCtr ∈ carregar_e_processar_dados [rawNegCtr] ∧
    (calcRecord rawNegCtr).ctr ≤ 100 ∧
    (calcRecord rawNegCtr).impressoes ≠ 0 ∧
    (calcRecord rawNegCtr).cliques / (calcRecord rawNegCtr).impressoes * 100 < 0 ∧
    (calcRecord rawNegCtr).ctr < 0 ∧
    (calcRecord rawNegCtr).ctr = -1/2 := by
  have hm : calcRecord rawNegCtr ∈ carregar_e_processar_dados [rawNegCtr] := by
    simp [carregar_e_processar_dados]
  have h := c10_ctr_one_sided_clamp [rawNegCtr] _ hm
  have h0 : (calcRecord rawNegCtr).impressoes ≠ 0 := by
    norm_num [calcRecord, rawNegCtr]
  have hneg : (calcRecord rawNegCtr).cliques / (calcRecord rawNegCtr).impressoes * 100 < 0 := by
    norm_num [calcRecord, rawNegCtr]
  have heq := h.2.1 h0 (le_of_lt (lt_of_lt_of_le hneg (by norm_num)))
  refine ⟨hm, h.1, h0, hneg, h.2.2 h0 hneg, ?_⟩
  rw [heq]
  norm_num [calcRecord, rawNegCtr]

/-! ### Lemmas about the dashboard body -/

lemma insights_of_ne (records : List CalcRecord) (plats camps : List IdCell)
    (h : df_filtrado records plats camps ≠ []) :
    (aggregateAndEvaluate records plats camps).insights =
      cplInsights (df_campanhas (df_filtrado records plats camps)) ++
        ctrInsights (df_filtrado records plats camps) := by
  simp [aggregateAndEvaluate, List.isEmpty_iff, h]

lemma kpis_of_ne (records : List CalcRecord) (plats camps : List IdCell)
    (h : df_filtrado records plats camps ≠ []) :
    (aggregateAndEvaluate records plats camps).kpis =
      ⟨cpc_medio (df_filtrado records plats camps),
       ctr_medio (df_filtrado records plats camps),
       cpl_medio (df_filtrado records plats camps),
       cac_geral (df_filtrado records plats camps)⟩ := by
  simp [aggregateAndEvaluate, List.isEmpty_iff, h]

lemma rollups_of_ne (records : List CalcRecord) (plats camps : List IdCell)
    (h : df_filtrado records plats camps ≠ []) :
    (aggregateAndEvaluate records plats camps).rollups =
      df_campanhas (df_filtrado records plats camps) := by
  simp [aggregateAndEvaluate, List.isEmpty_iff, h]

/-- C8: when the filters exclude every record, the dashboard body returns the
explicit empty result — no rollup, no insight, all four KPIs zero — without
raising. -/
theorem c8_empty_filter (records : List CalcRecord) (plats camps : List IdCell)
    (h : df_filtrado records plats camps = []) :
    aggregateAndEvaluate records plats camps = ⟨⟨0, 0, 0, 0⟩, [], []⟩ := by
  simp [aggregateAndEvaluate, h]

theorem c8_empty_filter_witness :
    df_filtrado [calcRecord rawC9] [] [] = [] ∧
    aggregateAndEvaluate [calcRecord rawC9] [] [] = ⟨⟨0, 0, 0, 0⟩, [], []⟩ := by
  have hf : df_filtrado [calcRecord rawC9] [] [] = [] := by
    simp [df_filtrado]
  exact ⟨hf, c8_empty_filter _ _ _ hf⟩

/-! ### Evaluation of the skewed-data scenario -/

lemma calc_skew90 : calcRecord rawSkew90 =
    { plataforma := .str "Google", campanha := .str "Busca",
      investimento := 90, impressoes := 0, cliques := 0, leads := 1,
      novos_clientes := 0, outros_custos := 0,
      ctr := 0, cpc := 0, cpm := 0, cpl := 90,
      custo_total_diario := 90, cac_diario := 0 } := by
  norm_num [calcRecord, rawSkew90, pdiv, pscale, clampCTR, le100, toFinal]

lemma calc_skew10 : calcRecord rawSkew10 =
    { plataforma := .str "Google", campanha := .str "Busca",
      investimento := 10, impressoes := 0, cliques := 0, leads := 10,
      novos_clientes := 0, outros_custos := 0,
      ctr := 0, cpc := 0, cpm := 0, cpl := 1,
      custo_total_diario := 10, cac_diario := 0 } := by
  norm_num [calcRecord, rawSkew10, pdiv, pscale, clampCTR, le100, toFinal]

lemma filtrado_skew : df_filtrado skewRecords platsG campsB =
    [calcRecord rawSkew90, calcRecord rawSkew10] := by
  simp [skewRecords, carregar_e_processar_dados, df_filtrado, platsG, campsB,
    List.filter, calc_skew90, calc_skew10]

/-- C3: for every non-empty filtered set, the KPI `cpl_medio` is the ratio of
sums — total investment over total leads, 0 when total leads is not positive —
and on the skewed two-record data set it differs from the arithmetic mean of
the per-record CPL values. -/
theorem c3_cpl_overall (records : List CalcRecord) (plats camps : List IdCell)
    (h : df_filtrado records plats camps ≠ []) :
    ((aggregateAndEvaluate records plats camps).kpis.cpl_medio =
      if 0 < ((df_filtrado records plats camps).map (·.leads)).sum then
        ((df_filtrado records plats camps).map (·.investimento)).sum /
          ((df_filtrado records plats camps).map (·.leads)).sum
      else 0) ∧
    (aggregateAndEvaluate skewRecords platsG campsB).kpis.cpl_medio ≠
      meanQ ((df_filtrado skewRecords platsG campsB).map (·.cpl)) := by
  constructor
  · rw [kpis_of_ne _ _ _ h]
    simp [cpl_medio, total_leads, total_investimento]
  · have hne : df_filtrado skewRecords platsG campsB ≠ [] := by
      rw [filtrado_skew]
      simp
    rw [kpis_of_ne _ _ _ hne, filtrado_skew]
    norm_num [cpl_medio, total_leads, total_investimento, calc_skew90,
      calc_skew10, meanQ]

theorem c3_cpl_overall_witness :
    df_filtrado skewRecords platsG campsB ≠ [] ∧
    ((aggregateAndEvaluate skewRecords platsG campsB).kpis.cpl_medio =
      if 0 < ((df_filtrado skewRecords platsG campsB).map (·.leads)).sum then
        ((df_filtrado skewRecords platsG campsB).map (·.investimento)).sum /
          ((df_filtrado skewRecords platsG campsB).map (·.leads)).sum
      else 0) ∧
    (aggregateAndEvaluate skewRecords platsG campsB).kpis.cpl_medio ≠
      meanQ ((df_filtrado skewRecords platsG campsB).map (·.cpl)) ∧
    (aggregateAndEvaluate skewRecords platsG campsB).kpis.cpl_medio = 100 / 11 ∧
    meanQ ((df_filtrado skewRecords platsG campsB).map (·.cpl)) = 91 / 2 := by
  have hne : df_filtrado skewRecords platsG campsB ≠ [] := by
    rw [filtrado_skew]
    simp
  have h := c3_cpl_overall skewRecords platsG campsB hne
  refine ⟨hne, h.1, h.2, ?_, ?_⟩
  · rw [kpis_of_ne _ _ _ hne, filtrado_skew]
    norm_num [cpl_medio, total_leads, total_investimento, calc_skew90, calc_skew10]
  · rw [filtrado_skew]
    norm_num [calc_skew90, calc_skew10, meanQ]

/-! ### Lemmas about the two insight rules -/

lemma cplInsights_of_ne (R : List Rollup) (h : campanhas_cpl_alto R ≠ []) :
    cplInsights R =
      [.high_cpl_alert ((campanhas_cpl_alto R).map (·.campanha))] := by
  unfold cplInsights
  rw [if_neg (by simpa [List.isEmpty_iff] using h)]

lemma cplInsights_of_empty (R : List Rollup) (h : campanhas_cpl_alto R = []) :
    cplInsights R = [.ok] := by
  unfold cplInsights
  rw [if_pos (by simpa [List.isEmpty_iff] using h)]

lemma cplInsights_filter_length (R : List Rollup) :
    ((cplInsights R).filter Insight.isCplKind).length = 1 := by
  unfold cplInsights
  split <;> simp [Insight.isCplKind]

lemma ctrInsights_filter_cpl (f : List CalcRecord) :
    (ctrInsights f).filter Insight.isCplKind = [] := by
  unfold ctrInsights
  split <;> simp [Insight.isCplKind]

lemma low_not_mem_cplInsights (R : List Rollup) (x : ℚ) :
    Insight.low_ctr_warning x ∉ cplInsights R := by
  unfold cplInsights
  split <;> simp

lemma ok_not_mem_ctrInsights (f : List CalcRecord) :
    Insight.ok ∉ ctrInsights f := by
  unfold ctrInsights
  split <;> simp

lemma high_not_mem_ctrInsights (f : List CalcRecord) (ns : List IdCell) :
    Insight.high_cpl_alert ns ∉ ctrInsights f := by
  unfold ctrInsights
  split <;> simp

lemma mem_campanhas_cpl_alto (R : List Rollup) (r : Rollup) :
    r ∈ campanhas_cpl_alto R ↔ r ∈ R ∧ cpl_limite_alerta < r.cpl_campanha := by
  simp [campanhas_cpl_alto, List.mem_filter]

/-- C4: for every non-empty filtered set, the CPL rule emits exactly one
insight — the alert naming precisely the campaigns of the rollups whose mean
CPL strictly exceeds the 50.0 threshold when at least one exists, otherwise
the all-clear — the two being mutually exclusive, and a rollup whose mean CPL
equals the threshold exactly is never collected into the alert. -/
theorem c4_high_cpl_rule (records : List CalcRecord) (plats camps : List IdCell)
    (R : List Rollup) (ins : List Insight) (altas : List Rollup)
    (h : df_filtrado records plats camps ≠ [])
    (hR : R = df_campanhas (df_filtrado records plats camps))
    (hins : ins = (aggregateAndEvaluate records plats camps).insights)
    (haltas : altas = campanhas_cpl_alto R) :
    (ins.filter Insight.isCplKind).length = 1 ∧
    (altas ≠ [] →
      Insight.high_cpl_alert (altas.map (·.campanha)) ∈ ins ∧
      Insight.ok ∉ ins) ∧
    (altas = [] →
      Insight.ok ∈ ins ∧ ∀ ns, Insight.high_cpl_alert ns ∉ ins) ∧
    (∀ r ∈ R, (cpl_limite_alerta < r.cpl_campanha ↔ r ∈ altas)) ∧
    (∀ r ∈ R, r.cpl_campanha = cpl_limite_alerta → r ∉ altas) := by
  subst hR haltas hins
  rw [insights_of_ne _ _ _ h]
  refine ⟨?_, ?_, ?_, ?_, ?_⟩
  · rw [List.filter_append, ctrInsights_filter_cpl, List.append_nil,
      cplInsights_filter_length]
  · intro hne
    rw [cplInsights_of_ne _ hne]
    constructor
    · simp
    · simp only [List.mem_append]
      rintro (hl | hl)
      · simp at hl
      · exact ok_not_mem_ctrInsights _ hl
  · intro hemp
    rw [cplInsights_of_empty _ hemp]
    refine ⟨by simp, ?_⟩
    intro ns
    simp only [List.mem_append]
    rintro (hl | hl)
    · simp at hl
    · exact high_not_mem_ctrInsights _ _ hl
  · intro r hr
    rw [mem_campanhas_cpl_alto]
    exact ⟨fun hlt => ⟨hr, hlt⟩, fun hm => hm.2⟩
  · intro r hr heq hm
    exact absurd ((mem_campanhas_cpl_alto _ _).mp hm).2 (by rw [heq]; exact lt_irrefl _)

/-! ### Evaluation of the exact-threshold campaign scenario -/

lemma calc_cpl10 : calcRecord rawCpl10 =
    { plataforma := .str "Meta", campanha := .str "Promo",
      investimento := 10, impressoes := 0, cliques := 0, leads := 1,
      novos_clientes := 0, outros_custos := 0,
      ctr := 0, cpc := 0, cpm := 0, cpl := 10,
      custo_total_diario := 10, cac_diario := 0 } := by
  norm_num [calcRecord, rawCpl10, pdiv, pscale, clampCTR, le100, toFinal]

lemma calc_cpl90 : calcRecord rawCpl90 =
    { plataforma := .str "Meta", campanha := .str "Promo",
      investimento := 90, impressoes := 0, cliques := 0, leads := 1,
      novos_clientes := 0, outros_custos := 0,
      ctr := 0, cpc := 0, cpm := 0, cpl := 90,
      custo_total_diario := 90, cac_diario := 0 } := by
  norm_num [calcRecord, rawCpl90, pdiv, pscale, clampCTR, le100, toFinal]

lemma filtrado_cpl : df_filtrado cplRecords platsM campsP =
    [calcRecord rawCpl10, calcRecord rawCpl90] := by
  simp [cplRecords, carregar_e_processar_dados, df_filtrado, platsM, campsP,
    List.filter, calc_cpl10, calc_cpl90]

lemma campanhas_cpl : df_campanhas (df_filtrado cplRecords platsM campsP) =
    [{ plataforma := .str "Meta", campanha := .str "Promo",
       investimento := 100, leads := 2, clientes := 0,
       cpl_campanha := 50, ctr_campanha := 0 }] := by
  rw [filtrado_cpl]
  norm_num [df_campanhas, recordKey, uniqueKeys, uniqueKeysAux,
    List.insertionSort, List.orderedInsert, calc_cpl10, calc_cpl90, meanQ,
    List.filter]

lemma altas_cpl_empty :
    campanhas_cpl_alto (df_campanhas (df_filtrado cplRecords platsM campsP)) = [] := by
  rw [campanhas_cpl]
  norm_num [campanhas_cpl_alto, cpl_limite_alerta, List.filter]

theorem c4_high_cpl_rule_witness :
    df_filtrado cplRecords platsM campsP ≠ [] ∧
    (df_campanhas (df_filtrado cplRecords platsM campsP)).map (·.cpl_campanha) = [50] ∧
    campanhas_cpl_alto (df_campanhas (df_filtrado cplRecords platsM campsP)) = [] ∧
    Insight.ok ∈ (aggregateAndEvaluate cplRecords platsM campsP).insights ∧
    ((aggregateAndEvaluate cplRecords platsM campsP).insights.filter
      Insight.isCplKind).length = 1 := by
  have hne : df_filtrado cplRecords platsM campsP ≠ [] := by
    rw [filtrado_cpl]
    simp
  have h := c4_high_cpl_rule cplRecords platsM campsP _ _ _ hne rfl rfl rfl
  refine ⟨hne, ?_, altas_cpl_empty, (h.2.2.1 altas_cpl_empty).1, h.1⟩
  rw [campanhas_cpl]
  simp

/-- C5: for every non-empty filtered set, the low-CTR warning (carrying the
mean CTR) is emitted exactly when total investment is positive and the mean
per-record CTR is strictly below 1.0; a mean CTR of exactly 1.0 never fires;
and independently of this rule the CPL rule still emits exactly one insight. -/
theorem c5_low_ctr_rule (records : List CalcRecord) (plats camps : List IdCell)
    (f : List CalcRecord) (ins : List Insight)
    (hf : f = df_filtrado records plats camps) (h : f ≠ [])
    (hins : ins = (aggregateAndEvaluate records plats camps).insights) :
    ((0 < total_investimento f ∧ ctr_medio f < 1) →
      Insight.low_ctr_warning (ctr_medio f) ∈ ins) ∧
    (¬(0 < total_investimento f ∧ ctr_medio f < 1) →
      ∀ x, Insight.low_ctr_warning x ∉ ins) ∧
    (ctr_medio f = 1 → ∀ x, Insight.low_ctr_warning x ∉ ins) ∧
    (ins.filter Insight.isCplKind).length = 1 := by
  subst hf hins
  rw [insights_of_ne _ _ _ h]
  have hnot : ¬(0 < total_investimento (df_filtrado records plats camps) ∧
      ctr_medio (df_filtrado records plats camps) < 1) →
      ∀ x, Insight.low_ctr_warning x ∉
        cplInsights (df_campanhas (df_filtrado records plats camps)) ++
          ctrInsights (df_filtrado records plats camps) := by
    intro hcond x
    simp only [List.mem_append]
    rintro (hl | hl)
    · exact low_not_mem_cplInsights _ _ hl
    · unfold ctrInsights at hl
      rw [if_neg hcond] at hl
      simp at hl
  refine ⟨?_, hnot, ?_, ?_⟩
  · intro hcond
    simp only [List.mem_append]
    right
    unfold ctrInsights
    rw [if_pos hcond]
    simp
  · intro h1
    refine hnot ?_
    rintro ⟨-, hlt⟩
    rw [h1] at hlt
    exact lt_irrefl _ hlt
  · rw [List.filter_append, ctrInsights_filter_cpl, List.append_nil,
      cplInsights_filter_length]

theorem c5_low_ctr_rule_witness :
    df_filtrado cplRecords platsM campsP ≠ [] ∧
    0 < total_investimento (df_filtrado cplRecords platsM campsP) ∧
    ctr_medio (df_filtrado cplRecords platsM campsP) < 1 ∧
    Insight.low_ctr_warning (ctr_medio (df_filtrado cplRecords platsM campsP)) ∈
      (aggregateAndEvaluate cplRecords platsM campsP).insights ∧
    ((aggregateAndEvaluate cplRecords platsM campsP).insights.filter
      Insight.isCplKind).length = 1 := by
  have hne : df_filtrado cplRecords platsM campsP ≠ [] := by
    rw [filtrado_cpl]
    simp
  have h := c5_low_ctr_rule cplRecords platsM campsP _ _ rfl hne rfl
  have hinv : 0 < total_investimento (df_filtrado cplRecords platsM campsP) := by
    rw [filtrado_cpl]
    norm_num [total_investimento, calc_cpl10, calc_cpl90]
  have hctr : ctr_medio (df_filtrado cplRecords platsM campsP) < 1 := by
    rw [filtrado_cpl]
    norm_num [ctr_medio, meanQ, calc_cpl10, calc_cpl90]
  exact ⟨hne, hinv, hctr, h.1 ⟨hinv, hctr⟩, h.2.2.2⟩

/-! ### The group-key order is total and transitive -/

lemma charListLe_iff (a b : Char) (as bs : List Char) :
    charListLe (a :: as) (b :: bs) = true ↔
      a < b ∨ (a = b ∧ charListLe as bs = true) := by
  by_cases h1 : a < b
  · simp [charListLe, h1]
  · by_cases h2 : b < a
    · have hne : a ≠ b := by
        rintro rfl
        exact lt_irrefl _ h2
      simp [charListLe, h1, h2, hne]
    · have he : a = b := le_antisymm (not_lt.mp h2) (not_lt.mp h1)
      simp [charListLe, h1, h2, he]

lemma charListLt_iff (a b : Char) (as bs : List Char) :
    charListLt (a :: as) (b :: bs) = true ↔
      a < b ∨ (a = b ∧ charListLt as bs = true) := by
  by_cases h1 : a < b
  · simp [charListLt, h1]
  · by_cases h2 : b < a
    · have hne : a ≠ b := by
        rintro rfl
        exact lt_irrefl _ h2
      simp [charListLt, h1, h2, hne]
    · have he : a = b := le_antisymm (not_lt.mp h2) (not_lt.mp h1)
      simp [charListLt, h1, h2, he]

lemma charListLe_total : ∀ as bs : List Char,
    charListLe as bs = true ∨ charListLe bs as = true
  | [], _ => Or.inl rfl
  | _ :: _, [] => Or.inr rfl
  | a :: as, b :: bs => by
    rcases lt_trichotomy a b with h | h | h
    · exact Or.inl ((charListLe_iff a b as bs).mpr (Or.inl h))
    · subst h
      rcases charListLe_total as bs with ih | ih
      · exact Or.inl ((charListLe_iff a a as bs).mpr (Or.inr ⟨rfl, ih⟩))
      · exact Or.inr ((charListLe_iff a a bs as).mpr (Or.inr ⟨rfl, ih⟩))
    · exact Or.inr ((charListLe_iff b a bs as).mpr (Or.inl h))

lemma charListLe_trans : ∀ as bs cs : List Char,
    charListLe as bs = true → charListLe bs cs = true → charListLe as cs = true
  | [], _, _, _, _ => rfl
  | _ :: _, [], _, h1, _ => by simp [charListLe] at h1
  | _ :: _, _ :: _, [], _, h2 => by simp [charListLe] at h2
  | a :: as, b :: bs, c :: cs, h1, h2 => by
    rw [charListLe_iff] at h1 h2 ⊢
    rcases h1 with h1 | ⟨he1, h1⟩
    · rcases h2 with h2 | ⟨he2, h2⟩
      · exact Or.inl (lt_trans h1 h2)
      · exact Or.inl (he2 ▸ h1)
    · rcases h2 with h2 | ⟨he2, h2⟩
      · exact Or.inl (he1 ▸ h2)
      · exact Or.inr ⟨he1.trans he2, charListLe_trans as bs cs h1 h2⟩

lemma charListLt_ne : ∀ as bs : List Char, as ≠ bs →
    charListLt as bs = true ∨ charListLt bs as = true
  | [], [], h => absurd rfl h
  | [], _ :: _, _ => Or.inl rfl
  | _ :: _, [], _ => Or.inr rfl
  | a :: as, b :: bs, h => by
    rcases lt_trichotomy a b with hc | hc | hc
    · exact Or.inl ((charListLt_iff a b as bs).mpr (Or.inl hc))
    · subst hc
      have hne : as ≠ bs := by
        intro he
        exact h (by rw [he])
      rcases charListLt_ne as bs hne with ih | ih
      · exact Or.inl ((charListLt_iff a a as bs).mpr (Or.inr ⟨rfl, ih⟩))
      · exact Or.inr ((charListLt_iff a a bs as).mpr (Or.inr ⟨rfl, ih⟩))
    · exact Or.inr ((charListLt_iff b a bs as).mpr (Or.inl hc))

lemma charListLt_asymm : ∀ as bs : List Char,
    charListLt as bs = true → charListLt bs as = true → False
  | [], bs, h1, h2 => by
    cases bs with
    | nil => simp [charListLt] at h1
    | cons b bs => simp [charListLt] at h2
  | _ :: _, [], h1, _ => by simp [charListLt] at h1
  | a :: as, b :: bs, h1, h2 => by
    rw [charListLt_iff] at h1 h2
    rcases h1 with h1 | ⟨he1, h1⟩
    · rcases h2 with h2 | ⟨he2, h2⟩
      · exact lt_asymm h1 h2
      · exact lt_irrefl _ (he2 ▸ h1)
    · rcases h2 with h2 | ⟨he2, h2⟩
      · exact lt_irrefl _ (he1 ▸ h2)
      · exact charListLt_asymm as bs h1 h2

lemma charListLt_trans : ∀ as bs cs : List Char,
    charListLt as bs = true → charListLt bs cs = true → charListLt as cs = true
  | [], _, _ :: _, _, _ => rfl
  | [], _ :: _, [], _, h2 => by simp [charListLt] at h2
  | [], [], [], h1, _ => by simp [charListLt] at h1
  | _ :: _, [], _, h1, _ => by simp [charListLt] at h1
  | _ :: _, _ :: _, [], _, h2 => by simp [charListLt] at h2
  | a :: as, b :: bs, c :: cs, h1, h2 => by
    rw [charListLt_iff] at h1 h2 ⊢
    rcases h1 with h1 | ⟨he1, h1⟩
    · rcases h2 with h2 | ⟨he2, h2⟩
      · exact Or.inl (lt_trans h1 h2)
      · exact Or.inl (he2 ▸ h1)
    · rcases h2 with h2 | ⟨he2, h2⟩
      · exact Or.inl (he1 ▸ h2)
      · exact Or.inr ⟨he1.trans he2, charListLt_trans as bs cs h1 h2⟩

lemma IdCell.leB_total (a b : IdCell) : a.leB b = true ∨ b.leB a = true := by
  cases a with
  | str s =>
    cases b with
    | str t => exact charListLe_total s.toList t.toList
    | num q => exact Or.inr rfl
  | num q =>
    cases b with
    | str t => exact Or.inl rfl
    | num p =>
      rcases le_total q p with h | h
      · exact Or.inl (by simp [IdCell.leB, h])
      · exact Or.inr (by simp [IdCell.leB, h])

lemma IdCell.leB_trans (a b c : IdCell) (h1 : a.leB b = true) (h2 : b.leB c = true) :
    a.leB c = true := by
  cases a with
  | str s =>
    cases b with
    | num q => simp [IdCell.leB] at h1
    | str t =>
      cases c with
      | num p => simp [IdCell.leB] at h2
      | str u => exact charListLe_trans s.toList t.toList u.toList h1 h2
  | num q =>
    cases c with
    | str u => rfl
    | num p =>
      cases b with
      | str t => simp [IdCell.leB] at h2
      | num m =>
        simp only [IdCell.leB, decide_eq_true_eq] at h1 h2 ⊢
        exact le_trans h1 h2

lemma IdCell.ltB_ne (a b : IdCell) (h : a ≠ b) : a.ltB b = true ∨ b.ltB a = true := by
  cases a with
  | str s =>
    cases b with
    | num q => exact Or.inr rfl
    | str t =>
      have hst : s ≠ t := by
        rintro rfl
        exact h rfl
      have hdt : s.toList ≠ t.toList := by
        intro hd
        exact hst (String.ext hd)
      exact charListLt_ne s.toList t.toList hdt
  | num q =>
    cases b with
    | str t => exact Or.inl rfl
    | num p =>
      have hqp : q ≠ p := by
        rintro rfl
        exact h rfl
      rcases lt_or_gt_of_ne hqp with hlt | hgt
      · exact Or.inl (by simp [IdCell.ltB, hlt])
      · exact Or.inr (by simp [IdCell.ltB, hgt])

lemma IdCell.ltB_asymm (a b : IdCell) (h1 : a.ltB b = true) (h2 : b.ltB a = true) :
    False := by
  cases a with
  | str s =>
    cases b with
    | num q => simp [IdCell.ltB] at h1
    | str t => exact charListLt_asymm s.toList t.toList h1 h2
  | num q =>
    cases b with
    | str t => simp [IdCell.ltB] at h2
    | num p =>
      simp only [IdCell.ltB, decide_eq_true_eq] at h1 h2
      exact lt_asymm h1 h2

lemma IdCell.ltB_trans (a b c : IdCell) (h1 : a.ltB b = true) (h2 : b.ltB c = true) :
    a.ltB c = true := by
  cases a with
  | str s =>
    cases b with
    | num q => simp [IdCell.ltB] at h1
    | str t =>
      cases c with
      | num p => simp [IdCell.ltB] at h2
      | str u => exact charListLt_trans s.toList t.toList u.toList h1 h2
  | num q =>
    cases c with
    | str u => rfl
    | num p =>
      cases b with
      | str t => simp [IdCell.ltB] at h2
      | num m =>
        simp only [IdCell.ltB, decide_eq_true_eq] at h1 h2 ⊢
        exact lt_trans h1 h2

instance : IsTotal (IdCell × IdCell) keyLe := by
  constructor
  intro x y
  unfold keyLe
  by_cases h : x.1 = y.1
  · rw [if_pos h, if_pos h.symm]
    exact IdCell.leB_total _ _
  · rw [if_neg h, if_neg (Ne.symm h)]
    exact IdCell.ltB_ne _ _ h

instance : IsTrans (IdCell × IdCell) keyLe := by
  constructor
  intro x y z hxy hyz
  unfold keyLe at hxy hyz ⊢
  by_cases h1 : x.1 = y.1 <;> by_cases h2 : y.1 = z.1
  · rw [if_pos h1] at hxy
    rw [if_pos h2] at hyz
    rw [if_pos (h1.trans h2)]
    exact IdCell.leB_trans _ _ _ hxy hyz
  · rw [if_pos h1] at hxy
    rw [if_neg h2] at hyz
    have hxz : x.1 ≠ z.1 := by
      rw [h1]
      exact h2
    rw [if_neg hxz, h1]
    exact hyz
  · rw [if_neg h1] at hxy
    rw [if_pos h2] at hyz
    have hxz : x.1 ≠ z.1 := fun he => h1 (he.trans h2.symm)
    rw [if_neg hxz, ← h2]
    exact hxy
  · rw [if_neg h1] at hxy
    rw [if_neg h2] at hyz
    by_cases hxz : x.1 = z.1
    · exact absurd (hxz ▸ hyz) fun hy => IdCell.ltB_asymm _ _ hxy hy
    · rw [if_neg hxz]
      exact IdCell.ltB_trans _ _ _ hxy hyz

/-! ### Group order (C7) and missing identifiers (C6) -/

/-- C7 counterexample: with input groups first seen in the order (B, y) then
(A, x), the rollup rows come out in ascending key order (A, x), (B, y) —
`groupby`'s `sort=True` default — not in first-seen order. -/
theorem c7_first_seen_counterexample :
    ((aggregateAndEvaluate orderRecords platsBA campsYX).rollups.map
      fun r => (r.plataforma, r.campanha)) =
      [(.str "A", .str "x"), (.str "B", .str "y")] ∧
    uniqueKeys ((df_filtrado orderRecords platsBA campsYX).map recordKey) =
      [(.str "B", .str "y"), (.str "A", .str "x")] ∧
    ((aggregateAndEvaluate orderRecords platsBA campsYX).rollups.map
      fun r => (r.plataforma, r.campanha)) ≠
      uniqueKeys ((df_filtrado orderRecords platsBA campsYX).map recordKey) := by
  decide

/-- C7 amended: for every input, the rollup list of the dashboard body is
ordered by ascending `(Plataforma, Campanha)` group key — it is sorted under
`keyLe` and is a permutation of the first-seen-order list of distinct keys,
rather than equal to it. -/
theorem c7_rollup_order_sorted (records : List CalcRecord) (plats camps : List IdCell) :
    List.Sorted keyLe ((aggregateAndEvaluate records plats camps).rollups.map
      fun r => (r.plataforma, r.campanha)) ∧
    ((aggregateAndEvaluate records plats camps).rollups.map
      fun r => (r.plataforma, r.campanha)).Perm
      (uniqueKeys ((df_filtrado records plats camps).map recordKey)) := by
  by_cases h : df_filtrado records plats camps = []
  · simp [aggregateAndEvaluate, h, uniqueKeys, uniqueKeysAux]
  · rw [rollups_of_ne _ _ _ h]
    have hkeys : (df_campanhas (df_filtrado records plats camps)).map
        (fun r => (r.plataforma, r.campanha)) =
        List.insertionSort keyLe
          (uniqueKeys ((df_filtrado records plats camps).map recordKey)) := by
      rw [df_campanhas, List.map_map]
      show List.map (fun k : IdCell × IdCell => (k.1, k.2))
          (List.insertionSort keyLe
            (uniqueKeys ((df_filtrado records plats camps).map recordKey))) =
        List.insertionSort keyLe
          (uniqueKeys ((df_filtrado records plats camps).map recordKey))
      simp
    rw [hkeys]
    exact ⟨List.sorted_insertionSort _ _, List.perm_insertionSort _ _⟩

lemma meanQ_singleton (x : ℚ) : meanQ [x] = x := by
  simp [meanQ]

lemma df_campanhas_singleton (c : CalcRecord) :
    df_campanhas [c] =
      [{ plataforma := c.plataforma, campanha := c.campanha,
         investimento := c.investimento, leads := c.leads,
         clientes := c.novos_clientes, cpl_campanha := c.cpl,
         ctr_campanha := c.ctr }] := by
  simp [df_campanhas, uniqueKeys, uniqueKeysAux, List.insertionSort,
    List.orderedInsert, recordKey, meanQ, List.filter]

/-- C6 counterexample: a record whose platform cell is missing is not
rejected — `fillna(0)` (line 46) writes the number 0 into the identifier and
the aggregation groups the record under that default key, returning normally. -/
theorem c6_missing_identifier_counterexample :
    rawMissingPlat.plataforma = none ∧
    (carregar_e_processar_dados [rawMissingPlat]).map (·.plataforma) =
      [IdCell.num 0] ∧
    ((aggregateAndEvaluate (carregar_e_processar_dados [rawMissingPlat])
        [IdCell.num 0] [IdCell.str "CampX"]).rollups.map
      fun ro => (ro.plataforma, ro.campanha)) =
      [(IdCell.num 0, IdCell.str "CampX")] := by
  refine ⟨rfl, ?_, ?_⟩
  · simp [carregar_e_processar_dados, calcRecord, rawMissingPlat]
  · have hf : df_filtrado (carregar_e_processar_dados [rawMissingPlat])
        [IdCell.num 0] [IdCell.str "CampX"] = [calcRecord rawMissingPlat] := by
      simp [carregar_e_processar_dados, df_filtrado, calcRecord, rawMissingPlat]
    have hne : df_filtrado (carregar_e_processar_dados [rawMissingPlat])
        [IdCell.num 0] [IdCell.str "CampX"] ≠ [] := by
      rw [hf]
      simp
    rw [rollups_of_ne _ _ _ hne, hf, df_campanhas_singleton]
    simp [calcRecord, rawMissingPlat]

lemma join_lista_campanhas_isSome (cells : List IdCell)
    (h : ∀ c ∈ cells, ∃ s, c = IdCell.str s) :
    (join_lista_campanhas cells).isSome = true := by
  induction cells with
  | nil => rfl
  | cons c rest ih =>
    obtain ⟨s, rfl⟩ := h c (List.mem_cons_self _ _)
    cases rest with
    | nil => rfl
    | cons d rest2 =>
      have ih2 := ih fun x hx => h x (List.mem_cons_of_mem _ hx)
      cases hj : join_lista_campanhas (d :: rest2) with
      | none => rw [hj] at ih2; simp at ih2
      | some t => simp [join_lista_campanhas, hj]

lemma cplInsightsE_of_str (R : List Rollup)
    (h : ∀ r ∈ campanhas_cpl_alto R, ∃ s, r.campanha = IdCell.str s) :
    cplInsightsE R = some (cplInsights R) := by
  unfold cplInsightsE cplInsights
  by_cases he : (campanhas_cpl_alto R).isEmpty
  · simp [he]
  · have hcells : ∀ c ∈ (campanhas_cpl_alto R).map (·.campanha),
        ∃ s, c = IdCell.str s := by
      intro c hc
      obtain ⟨r, hr, rfl⟩ := List.mem_map.mp hc
      exact h r hr
    obtain ⟨t, ht⟩ := Option.isSome_iff_exists.mp
      (join_lista_campanhas_isSome _ hcells)
    simp [he, ht]

lemma aggregateAndEvaluateE_of_str (records : List CalcRecord)
    (plats camps : List IdCell)
    (h : ∀ r ∈ campanhas_cpl_alto (df_campanhas (df_filtrado records plats camps)),
      ∃ s, r.campanha = IdCell.str s) :
    aggregateAndEvaluateE records plats camps =
      some (aggregateAndEvaluate records plats camps) := by
  unfold aggregateAndEvaluateE aggregateAndEvaluate
  by_cases he : (df_filtrado records plats camps).isEmpty
  · simp [he]
  · simp [he, cplInsightsE_of_str _ h]

/-- C6 amended: a record with a missing platform or campaign identifier raises
no structural error for that identifier: the final `fillna(0)` (line 46)
substitutes the number 0 for the missing cell and the grouping stage groups
the record under that default key like any other. Downstream of grouping,
when such a defaulted campaign key belongs to a rollup whose mean CPL exceeds
the alert threshold, line 133's message join raises TypeError. -/
theorem c6_missing_identifier_defaulted (r : RawRecord) :
    (r.plataforma = none → (calcRecord r).plataforma = IdCell.num 0) ∧
    (r.campanha = none → (calcRecord r).campanha = IdCell.num 0) ∧
    ((df_campanhas [calcRecord r]).map fun ro => (ro.plataforma, ro.campanha)) =
      [((calcRecord r).plataforma, (calcRecord r).campanha)] ∧
    (r.campanha = none → cpl_limite_alerta < (calcRecord r).cpl →
      aggregateAndEvaluateE [calcRecord r] [(calcRecord r).plataforma]
        [(calcRecord r).campanha] = none) := by
  refine ⟨?_, ?_, ?_, ?_⟩
  · intro h
    simp [calcRecord, h]
  · intro h
    simp [calcRecord, h]
  · rw [df_campanhas_singleton]
    simp
  · intro hc hcpl
    have hcamp : (calcRecord r).campanha = IdCell.num 0 := by
      simp [calcRecord, hc]
    have hf : df_filtrado [calcRecord r] [(calcRecord r).plataforma]
        [(calcRecord r).campanha] = [calcRecord r] := by
      simp [df_filtrado]
    unfold aggregateAndEvaluateE
    rw [hf]
    simp only [List.isEmpty_cons, Bool.false_eq_true, if_false]
    rw [df_campanhas_singleton]
    have halto : campanhas_cpl_alto
        [{ plataforma := (calcRecord r).plataforma,
           campanha := (calcRecord r).campanha,
           investimento := (calcRecord r).investimento,
           leads := (calcRecord r).leads,
           clientes := (calcRecord r).novos_clientes,
           cpl_campanha := (calcRecord r).cpl,
           ctr_campanha := (calcRecord r).ctr }] =
        [{ plataforma := (calcRecord r).plataforma,
           campanha := (calcRecord r).campanha,
           investimento := (calcRecord r).investimento,
           leads := (calcRecord r).leads,
           clientes := (calcRecord r).novos_clientes,
           cpl_campanha := (calcRecord r).cpl,
           ctr_campanha := (calcRecord r).ctr }] := by
      simp [campanhas_cpl_alto, hcpl]
    unfold cplInsightsE
    rw [halto]
    simp [hcamp, join_lista_campanhas]

theorem c6_missing_identifier_defaulted_witness :
    rawMissingBoth.plataforma = none ∧
    rawMissingBoth.campanha = none ∧
    (calcRecord rawMissingBoth).plataforma = IdCell.num 0 ∧
    (calcRecord rawMissingBoth).campanha = IdCell.num 0 ∧
    ((df_campanhas [calcRecord rawMissingBoth]).map
      fun ro => (ro.plataforma, ro.campanha)) =
      [(IdCell.num 0, IdCell.num 0)] ∧
    cpl_limite_alerta < (calcRecord rawMissingBoth).cpl ∧
    aggregateAndEvaluateE [calcRecord rawMissingBoth]
      [(calcRecord rawMissingBoth).plataforma]
      [(calcRecord rawMissingBoth).campanha] = none := by
  have h := c6_missing_identifier_defaulted rawMissingBoth
  have hcpl : cpl_limite_alerta < (calcRecord rawMissingBoth).cpl := by
    norm_num [calcRecord, rawMissingBoth, pdiv, toFinal, cpl_limite_alerta]
  exact ⟨rfl, rfl, h.1 rfl, h.2.1 rfl, h.2.2.1, hcpl, h.2.2.2 rfl hcpl⟩

end AnaliseCAC
